import Mathlib

/-!
Verification of the repository harvester (repo_ripper.py).

The embedding translates the path handling, catalog pagination, operator
selection, and clone-and-harvest bookkeeping of the source into executable
Lean definitions.  Filesystem, network and subprocess effects are modelled
by explicit oracles (directory-existence predicates, per-page HTTP
responses, per-repository clone outcomes and directory trees), so every
function is a pure, computable translation of the corresponding Python.
-/

namespace RepoRipper

/-! ## String primitives

Structural re-implementations of the string operations the source relies on
(str.startswith, str.endswith via the final character, str.split, str.strip,
str.lower, int parsing).  They are written over List Char so that concrete
instances evaluate inside the kernel.
-/

/-- Model of Python str.startswith: the second string is a prefix of the first. -/
def startsWithS (s pre : String) : Bool := List.isPrefixOf pre.data s.data

/-- Last character of a string, if any (used for the os.path.join separator test). -/
def lastChar? (s : String) : Option Char := s.data.getLast?

/-- Model of str.lower restricted to ASCII (enough for README-name matching). -/
def lowerS (s : String) : String := ⟨s.data.map Char.toLower⟩

/-- Split a character list at every occurrence of the separator character,
mirroring Python str.split(sep) (empty chunks are kept). -/
def splitChar (sep : Char) : List Char → List Char → List (List Char)
  | [], cur => [cur.reverse]
  | c :: cs, cur =>
    if c == sep then cur.reverse :: splitChar sep cs []
    else splitChar sep cs (c :: cur)

/-- Split a string on a separator character, as Python str.split(sep). -/
def splitOnCharS (sep : Char) (s : String) : List String :=
  (splitChar sep s.data []).map (fun cs => ⟨cs⟩)

/-- Model of str.strip(): drop leading and trailing whitespace. -/
def stripWS (s : String) : String :=
  ⟨((s.data.dropWhile Char.isWhitespace).reverse.dropWhile Char.isWhitespace).reverse⟩

/-! ## posixpath model

os.path.join and os.path.normpath for POSIX paths, translated from the
CPython implementations.  os.path.abspath(p) equals normpath(p) whenever p is
already absolute, which is the only way the source uses it (every argument is
built by joining onto os.getcwd()).
-/

/-- Model of posixpath.join for two components: an absolute second component
replaces the first; otherwise a separator is inserted unless the first part is
empty or already ends with one. -/
def pjoin (a b : String) : String :=
  if startsWithS b "/" then b
  else if a = "" ∨ lastChar? a = some '/' then a ++ b
  else a ++ "/" ++ b

/-- Component normalization loop of posixpath.normpath: skip empty and dot
components; a dot-dot pops the previous component except at the root of an
absolute path or when it follows an unresolved dot-dot of a relative path. -/
def normParts (isAbs : Bool) : List String → List String → List String
  | [], acc => acc.reverse
  | comp :: rest, acc =>
    if comp = "" ∨ comp = "." then normParts isAbs rest acc
    else if comp = ".." then
      match acc with
      | [] => if isAbs then normParts isAbs rest [] else normParts isAbs rest [comp]
      | top :: tl =>
        if top = ".." then normParts isAbs rest (comp :: acc)
        else normParts isAbs rest tl
    else normParts isAbs rest (comp :: acc)

/-- Model of posixpath.normpath. -/
def normpath (p : String) : String :=
  if p = "" then "."
  else
    let isAbs := startsWithS p "/"
    let lead : String :=
      if startsWithS p "//" ∧ ¬ startsWithS p "///" then "//"
      else if isAbs then "/" else ""
    let comps := normParts isAbs (splitOnCharS '/' p) []
    let out := lead ++ String.intercalate "/" comps
    if out = "" then "." else out

/-- abspath of an already absolute path (the only case the source exercises:
its inputs are joins onto os.getcwd(), which is absolute). -/
def abspath (p : String) : String := normpath p

/-- A resolved path lies outside a working directory when it is neither the
directory itself nor a descendant of it (descendant = the directory followed
by a separator is a string prefix). -/
def liesOutside (workingDir p : String) : Bool :=
  !(p == workingDir) && !(startsWithS p (workingDir ++ "/"))

/-! ## PathSandbox: setup_directories -/

/-- Outcome tag of setup_directories: a fatal exit at the base-path containment
check, a fatal exit at the org-path containment check, or success (warning
when the org directory already existed). -/
inductive SetupStatus where
  | escapeBase
  | escapeOrg
  | okExisting
  | okCreated
deriving DecidableEq, Repr

/-- Result of setup_directories: the status, every directory passed to
os.makedirs before returning or exiting, and the returned org path. -/
structure SetupResult where
  status : SetupStatus
  created : List String
  orgPath : Option String
deriving DecidableEq, Repr

/-- Translation of setup_directories(base_dir, org_dir, current_dir).
current_dir is os.getcwd(), an absolute normalized path; dirExists is the
os.path.exists oracle.  The containment test is the exact source test:
os.path.abspath(path).startswith(current_dir). -/
def setup_directories (base_dir org_dir current_dir : String)
    (dirExists : String → Bool) : SetupResult :=
  let base_path := pjoin current_dir base_dir
  if ¬ startsWithS (abspath base_path) current_dir then
    ⟨.escapeBase, [], none⟩
  else
    let org_path := pjoin base_path org_dir
    if ¬ startsWithS (abspath org_path) current_dir then
      ⟨.escapeOrg, [base_path], none⟩
    else if dirExists org_path then
      ⟨.okExisting, [base_path], some org_path⟩
    else
      ⟨.okCreated, [base_path, org_path], some org_path⟩

/-! ## RepoCatalogClient: fetch_repositories

The HTTP layer is an oracle from (page number, attempt number) to a response:
either a page of descriptors (a 2xx response whose JSON array is the page) or
a request error (an HTTP error status raised by raise_for_status, or a
network/timeout failure).  The source issues exactly one attempt per page
(attempt index 0): the loop body has no retry.  The result records the number
of GET requests issued; a fatal result records the URL of the failing
request together with the failing page and the underlying error, since the
printed exception text of the source echoes that URL.
-/

/-- A request failure: an HTTP error status (raise_for_status) or a transient
network error or timeout (the other requests.RequestException cases). -/
inductive ReqError where
  | httpStatus (status : Nat)
  | netError (msg : String)
deriving DecidableEq, Repr

/-- Response of one GET attempt for one page. -/
inductive HttpOutcome (α : Type) where
  | page (items : List α)
  | err (e : ReqError)
deriving DecidableEq, Repr

/-- Result of fetch_repositories: the collected descriptors with the number of
page requests issued, or a fatal exit (the source prints the exception and
calls sys.exit(1)) carrying the failing URL, page and error, or fuel
exhaustion of the model (never reached with enough fuel). -/
inductive FetchResult (α : Type) where
  | ok (repos : List α) (requests : Nat)
  | fatal (url : String) (pageNum : Nat) (e : ReqError) (requests : Nat)
  | outOfFuel
deriving DecidableEq, Repr

/-- The URL requested for one page, as built by the source:
api_url = https://api.github.com/orgs/{org}/repos, then
{api_url}?page={n}&per_page=100. -/
def pageUrl (organization_name : String) (page_number : Nat) : String :=
  "https://api.github.com/orgs/" ++ organization_name ++ "/repos" ++
    "?page=" ++ toString page_number ++ "&per_page=100"

/-- The while-loop of fetch_repositories.  Each iteration issues exactly one
GET for the current page (attempt 0 of the oracle — the source has no retry
wrapper): an empty page terminates with the accumulated list; a non-empty page
is appended (repositories.extend) and the page counter advances; any request
error is fatal immediately. -/
def fetchAux (organization_name : String) (http : Nat → Nat → HttpOutcome α) :
    Nat → Nat → Nat → List α → FetchResult α
  | 0, _, _, _ => .outOfFuel
  | fuel + 1, page_number, reqs, acc =>
    match http page_number 0 with
    | .page [] => .ok acc (reqs + 1)
    | .page items => fetchAux organization_name http fuel (page_number + 1) (reqs + 1) (acc ++ items)
    | .err e => .fatal (pageUrl organization_name page_number) page_number e (reqs + 1)

/-- Translation of fetch_repositories(organization_name): page counter starts
at 1, no descriptors accumulated, no requests issued yet. -/
def fetch_repositories (organization_name : String)
    (http : Nat → Nat → HttpOutcome α) (fuel : Nat) : FetchResult α :=
  fetchAux organization_name http fuel 1 0 []

/-- Page p of a catalog served 100 descriptors per page: descriptors
(p-1)*100 through p*100-1 in catalog order. -/
def pageSlice (catalog : List α) (p : Nat) : List α :=
  (catalog.drop ((p - 1) * 100)).take 100

/-- An HTTP oracle that serves a fixed catalog 100 descriptors per page and
never fails. -/
def catServe (catalog : List α) : Nat → Nat → HttpOutcome α :=
  fun p _ => .page (pageSlice catalog p)

/-- Number of page requests fetch_repositories issues for an n-descriptor
catalog served by catServe: one per non-empty page plus the final empty page. -/
def numRequests (n : Nat) : Nat :=
  n / 100 + 1 + (if n % 100 = 0 then 0 else 1)

/-! ## SelectionPlanner: get_selected_repos

The interactive loop of get_selected_repos is modelled with the list of
strings the operator would type at the prompt, consumed in order.  One
attempt parses the comma-separated 1-based indices (int(tok.strip()) - 1); a
non-integer token is a ValueError (the source prints an invalid-input message
and re-prompts); a parsed list with any index outside [0, len(catalog)) is
reported out of range and re-prompted; otherwise the 0-based list is
returned.
-/

/-- Underscore-aware digit validity of CPython int(): nonempty, digits with
single underscores strictly between digits. -/
def pyDigitsTail (prev : Char) : List Char → Bool
  | [] => prev.isDigit
  | c :: rest =>
    (if c = '_' then prev.isDigit else c.isDigit) && pyDigitsTail c rest

/-- Decimal value of a digit list (underscores removed beforehand). -/
def digitsFold (cs : List Char) : Nat :=
  cs.foldl (fun a c => a * 10 + (c.toNat - '0'.toNat)) 0

/-- Digits of a Python int literal, if valid. -/
def digitsVal (cs : List Char) : Option Nat :=
  match cs with
  | [] => none
  | c :: rest =>
    if c.isDigit && pyDigitsTail c rest then
      some (digitsFold ((c :: rest).filter (fun x => !(x == '_'))))
    else none

/-- Model of Python int(s) for a decimal string: strip whitespace, optional
sign, digits; none models ValueError. -/
def pyInt? (s : String) : Option Int :=
  match (stripWS s).data with
  | '+' :: rest => (digitsVal rest).map Int.ofNat
  | '-' :: rest => (digitsVal rest).map (fun n => -(n : Int))
  | cs => (digitsVal cs).map Int.ofNat

/-- The list comprehension of get_selected_repos:
[int(i.strip()) - 1 for i in indices_input.split(",")]; none models the
ValueError escaping the comprehension. -/
def parseIndices (s : String) : Option (List Int) :=
  (splitOnCharS ',' s).mapM (fun tok => (pyInt? tok).map (fun v => v - 1))

/-- Outcome of one iteration of the prompt loop. -/
inductive SelAttempt where
  | selected (idxs : List Int)
  | outOfRange
  | invalid
deriving DecidableEq, Repr

/-- One iteration of the while-loop of get_selected_repos on one typed line:
parse; on ValueError report invalid input; if every 0-based index satisfies
0 <= i < n return it, else report out of range.  The two failure outcomes
both re-prompt. -/
def selAttempt (s : String) (n : Nat) : SelAttempt :=
  match parseIndices s with
  | none => .invalid
  | some idxs =>
    if idxs.all (fun i => decide (0 ≤ i) && decide (i < (n : Int))) then .selected idxs
    else .outOfRange

/-- The prompt loop: consume typed lines until one yields a selection; none
models an operator who never supplies a valid line (the source would keep
prompting). -/
def selLoop (n : Nat) : List String → Option (List Int)
  | [] => none
  | s :: rest =>
    match selAttempt s n with
    | .selected idxs => some idxs
    | _ => selLoop n rest

/-- Translation of get_selected_repos(all_repos): when the operator declines
specific selection the whole range is returned; otherwise the prompt loop
runs on the operator's typed lines. -/
def get_selected_repos (selectSpecific : Bool) (inputs : List String) (n : Nat) :
    Option (List Int) :=
  if !selectSpecific then some ((List.range n).map Int.ofNat)
  else selLoop n inputs

/-! ## find_readme and os.walk

A cloned repository is a directory tree: a node carries the directory name,
the plain files directly inside it, and its subdirectories.  os.walk(top)
yields the tree top-down: the root with its files first, then each
subdirectory recursively, in list order.
-/

/-- A snapshot of a directory: its name, its regular files, its
subdirectories in listing order. -/
inductive DirTree where
  | node (dirName : String) (files : List String) (subdirs : List DirTree)

/-- Directory name of a tree node. -/
def DirTree.name : DirTree → String
  | .node n _ _ => n

/-- The README test of the source: file.lower() == "readme.md". -/
def isReadmeName (file : String) : Bool := lowerS file == "readme.md"

mutual

/-- Translation of find_readme(repo_path): walk the tree rooted at the given
path top-down and return the joined path of the first file whose lowercased
name is readme.md, or none. -/
def find_readme (root : String) : DirTree → Option String
  | .node _ files subdirs =>
    match files.find? isReadmeName with
    | some f => some (pjoin root f)
    | none => find_readme_list root subdirs

/-- find_readme continued over the subdirectories of one walk entry, in
listing order (the os.walk traversal order). -/
def find_readme_list (root : String) : List DirTree → Option String
  | [] => none
  | t :: ts =>
    match find_readme (pjoin root t.name) t with
    | some p => some p
    | none => find_readme_list root ts

end

mutual

/-- All (directory path, file name) pairs of the tree in os.walk top-down
order: files of the root first, then each subdirectory recursively. -/
def walkTree (root : String) : DirTree → List (String × String)
  | .node _ files subdirs =>
    files.map (fun f => (root, f)) ++ walkTreeList root subdirs

/-- walkTree over a list of subdirectories, in listing order. -/
def walkTreeList (root : String) : List DirTree → List (String × String)
  | [] => []
  | t :: ts => walkTree (pjoin root t.name) t ++ walkTreeList root ts

end

/-- The README test on a walk entry. -/
def isReadmeEntry (pr : String × String) : Bool := isReadmeName pr.2

/-! ## CloneAndHarvest: clone_and_process_repo and the catalog-driven loop

The clone subprocess and the resulting on-disk tree are a per-repository
oracle: whether git clone succeeded and, if so, the cloned directory tree.
clone_and_process_repo returns True only when the clone succeeded and a
README was found and copied; a clone failure is caught
(subprocess.CalledProcessError) and returns False, and a missing README also
returns False.  The copy performed, if any, is recorded as a
(source, destination) pair.
-/

/-- A planned repository together with its external-world outcome: its name,
whether the clone subprocess succeeds, and the directory tree the clone
produces. -/
structure RepoSpec where
  name : String
  cloneOk : Bool
  tree : DirTree

/-- Translation of clone_and_process_repo(repo_name, repo_url, org_path,
docs_dir): on clone failure return False with no copy; on success search the
cloned tree at org_path/repo_name; copy the first README found to
docs_dir/{repo_name}_README.md and return True, else return False. -/
def clone_and_process_repo (r : RepoSpec) (org_path docs_dir : String) :
    Bool × Option (String × String) :=
  if r.cloneOk then
    match find_readme (pjoin org_path r.name) r.tree with
    | some readme_src => (true, some (readme_src, pjoin docs_dir (r.name ++ "_README.md")))
    | none => (false, none)
  else (false, none)

/-- Whether one plan entry counts as a success in the catalog-driven loop. -/
def harvestOk (r : RepoSpec) (org_path docs_dir : String) : Bool :=
  (clone_and_process_repo r org_path docs_dir).1

/-- The three running counters printed in the final summary. -/
structure Summary where
  successful_clones : Nat
  failed_clones : Nat
  processed_readmes : Nat
deriving DecidableEq, Repr

/-- The per-entry tally of the catalog-driven loop: on True increment
successful_clones and processed_readmes, else increment failed_clones. -/
def cloneStep (s : Summary) (ok : Bool) : Summary :=
  if ok then ⟨s.successful_clones + 1, s.failed_clones, s.processed_readmes + 1⟩
  else ⟨s.successful_clones, s.failed_clones + 1, s.processed_readmes⟩

/-- The for-loop over selected_indices in clone_organization_repos: an index
outside [0, len(all_repos)) is warned about and skipped with no tally;
otherwise the repository at that index is cloned and processed and the tally
updated.  The loop never raises: every index is handled and the loop always
reaches the next one. -/
def cloneLoop (catalog : List RepoSpec) (org_path docs_dir : String) :
    List Int → Summary → Summary
  | [], s => s
  | i :: rest, s =>
    if i < 0 ∨ (catalog.length : Int) ≤ i then
      cloneLoop catalog org_path docs_dir rest s
    else
      match catalog[i.toNat]? with
      | some r =>
        cloneLoop catalog org_path docs_dir rest
          (cloneStep s (harvestOk r org_path docs_dir))
      | none => cloneLoop catalog org_path docs_dir rest s

/-- The summary printed by the catalog-driven path of
clone_organization_repos after processing every selected index. -/
def clone_organization_repos_summary (catalog : List RepoSpec)
    (selected_indices : List Int) (org_path docs_dir : String) : Summary :=
  cloneLoop catalog org_path docs_dir selected_indices ⟨0, 0, 0⟩

/-- The repositories the loop actually processes (in-range indices resolved
against the catalog, in plan order). -/
def pickedRepos (catalog : List RepoSpec) (selected_indices : List Int) :
    List RepoSpec :=
  selected_indices.filterMap (fun i =>
    if i < 0 ∨ (catalog.length : Int) ≤ i then none
    else catalog[i.toNat]?)

/-! ## Filesystem layout of both modes

clone_organization_repos computes current_dir = os.getcwd(), builds
org_path = current_dir/base_dir/org_dir (org_dir defaulting to the
organization name) and chdirs into it.  In the catalog-driven mode the docs
directory is joined onto current_dir as captured before the chdir; git clone
runs in the process working directory, which is org_path after the chdir.
In the file-driven mode clone_repos_from_file runs gh repo clone with
cwd=org_path, and joins its docs directory onto os.getcwd() — which, after
the chdir, is org_path, not the invocation working directory.
-/

/-- The destination paths of one repository in one run mode. -/
structure Layout where
  orgPath : String
  cloneDest : String
  readmeDest : String
deriving DecidableEq, Repr

/-- Paths produced by the catalog-driven mode for one repository:
org_path = cwd0/base_dir/org_dir; the clone lands in the post-chdir working
directory org_path under the repository name; docs_dir = cwd0/docs with the
copy at docs_dir/{repo}_README.md. -/
def catalog_mode_layout (org_name base_dir : String) (org_dir? : Option String)
    (repo_name cwd0 : String) : Layout :=
  let org_dir := org_dir?.getD org_name
  let org_path := pjoin (pjoin cwd0 base_dir) org_dir
  let docs_dir := pjoin cwd0 "docs"
  { orgPath := org_path
    cloneDest := pjoin org_path repo_name
    readmeDest := pjoin docs_dir (repo_name ++ "_README.md") }

/-- Paths produced by the file-driven mode for one repository: the clone runs
with cwd=org_path; the docs directory is joined onto os.getcwd() evaluated
after the chdir into org_path. -/
def file_mode_layout (org_name base_dir : String) (org_dir? : Option String)
    (repo_name cwd0 : String) : Layout :=
  let org_dir := org_dir?.getD org_name
  let org_path := pjoin (pjoin cwd0 base_dir) org_dir
  let cwd_after_chdir := org_path
  let docs_dir := pjoin cwd_after_chdir "docs"
  { orgPath := org_path
    cloneDest := pjoin org_path repo_name
    readmeDest := pjoin docs_dir (repo_name ++ "_README.md") }

/-! ## Concrete fixtures used by witnesses and counterexamples -/

/-- A cloned tree with a mixed-case README two levels deep. -/
def exTreeDeepReadme : DirTree :=
  .node "alpha" ["main.rs", "Cargo.toml"]
    [.node "sub" ["ReadMe.MD", "notes.txt"] []]

/-- A cloned tree containing no README at any depth. -/
def exTreeNoReadme : DirTree :=
  .node "beta" ["main.py"] [.node "src" ["util.py"] []]

/-- A one-repository catalog whose clone succeeds but whose tree has no
README. -/
def exCatalogCloneOkNoReadme : List RepoSpec :=
  [⟨"beta", true, exTreeNoReadme⟩]

/-- An HTTP oracle whose page 1 fails transiently on attempts 0 and 1 and
succeeds on attempt 2, every later page being empty: the retry scenario of
the specification. -/
def serveTransientThenOk : Nat → Nat → HttpOutcome Nat :=
  fun p a =>
    if p = 1 then (if a ≤ 1 then .err (.netError "timeout") else .page [42])
    else .page []

/-- An HTTP oracle whose page 1 returns HTTP 404 on every attempt. -/
def serve404 : Nat → Nat → HttpOutcome Nat :=
  fun p _ => if p = 1 then .err (.httpStatus 404) else .page []

/-! # Theorems -/

/-! ## C1: containment check of setup_directories -/

/-- Claim C1 (corrected): the directory-setup operation fails before creating
any directory exactly when the absolute path of join(workingDir, baseDir)
does not start — as a string — with workingDir.  The containment test is the
string-prefix test of the source, not a resolved-path-outside test. -/
theorem setup_directories_escape_iff (base_dir org_dir current_dir : String)
    (dirExists : String → Bool) :
    ((setup_directories base_dir org_dir current_dir dirExists).status = .escapeBase ↔
      startsWithS (abspath (pjoin current_dir base_dir)) current_dir = false)
    ∧ ((setup_directories base_dir org_dir current_dir dirExists).status = .escapeBase →
      (setup_directories base_dir org_dir current_dir dirExists).created = []) := by
  cases hb : startsWithS (abspath (pjoin current_dir base_dir)) current_dir with
  | false =>
    have hres : setup_directories base_dir org_dir current_dir dirExists
        = ⟨.escapeBase, [], none⟩ := by
      unfold setup_directories
      rw [if_pos (by simp [hb])]
    refine ⟨⟨fun _ => rfl, fun _ => by rw [hres]⟩, fun _ => by rw [hres]⟩
  | true =>
    have hstat : (setup_directories base_dir org_dir current_dir dirExists).status
        ≠ .escapeBase := by
      unfold setup_directories
      rw [if_neg (by simp [hb])]
      dsimp only
      split
      · simp
      · split
        · simp
        · simp
    exact ⟨⟨fun h => absurd h hstat, fun h => by simp at h⟩, fun h => absurd h hstat⟩

/-- Claim C1 witness: a baseDir of ".." resolves above the working directory,
fails the string-prefix test, and the operation exits with no directory
created. -/
theorem setup_directories_escape_iff_inst :
    (setup_directories ".." "o" "/w/x" (fun _ => false)).status = .escapeBase
    ∧ (setup_directories ".." "o" "/w/x" (fun _ => false)).created = [] := by
  have h := setup_directories_escape_iff ".." "o" "/w/x" (fun _ => false)
  have hs : (setup_directories ".." "o" "/w/x" (fun _ => false)).status = .escapeBase :=
    h.1.mpr (by decide)
  exact ⟨hs, h.2 hs⟩

/-- Claim C1 counterexample: with workingDir /home/user and baseDir
../username, the joined path resolves to /home/username — outside the
working directory — yet the string-prefix test passes, no PathEscapeError is
raised, and directories are created. -/
theorem setup_directories_traversal_not_rejected :
    liesOutside "/home/user" (abspath (pjoin "/home/user" "../username")) = true
    ∧ (setup_directories "../username" "payload" "/home/user" (fun _ => false)).status
        ≠ .escapeBase
    ∧ (setup_directories "../username" "payload" "/home/user" (fun _ => false)).created
        ≠ [] := by decide

/-! ## C2: pagination of fetch_repositories -/

/-- numRequests in closed arithmetic form. -/
theorem numRequests_arith (n : Nat) : numRequests n = (n + 199) / 100 := by
  unfold numRequests
  split <;> omega

/-- Page p+1 of a catalog equals page p of the catalog with its first 100
descriptors removed. -/
theorem pageSlice_succ (cat : List α) (p : Nat) (hp : 1 ≤ p) :
    pageSlice cat (p + 1) = pageSlice (cat.drop 100) p := by
  unfold pageSlice
  rw [List.drop_drop]
  have h : (p + 1 - 1) * 100 = 100 + (p - 1) * 100 := by omega
  rw [h]

/-- Fetching from page p+1 of a catalog behaves like fetching from page p of
the catalog shifted by one page. -/
theorem fetchAux_catServe_shift (org : String) (cat : List α) :
    ∀ (fuel p reqs : Nat) (acc : List α), 1 ≤ p →
      fetchAux org (catServe cat) fuel (p + 1) reqs acc
        = fetchAux org (catServe (cat.drop 100)) fuel p reqs acc := by
  intro fuel
  induction fuel with
  | zero => intro p reqs acc _; rfl
  | succ n ih =>
    intro p reqs acc hp
    simp only [fetchAux, catServe]
    rw [pageSlice_succ cat p hp]
    cases pageSlice (cat.drop 100) p with
    | nil => rfl
    | cons x xs => exact ih (p + 1) (reqs + 1) (acc ++ x :: xs) (by omega)

/-- The catalog loop starting at page 1 returns the whole catalog and issues
numRequests requests, for any starting accumulator and request counter. -/
theorem fetchAux_catServe (org : String) :
    ∀ (fuel : Nat) (cat : List α) (reqs : Nat) (acc : List α),
      numRequests cat.length ≤ fuel →
      fetchAux org (catServe cat) fuel 1 reqs acc
        = .ok (acc ++ cat) (reqs + numRequests cat.length) := by
  intro fuel
  induction fuel with
  | zero =>
    intro cat reqs acc h
    rw [numRequests_arith] at h
    omega
  | succ n ih =>
    intro cat reqs acc h
    simp only [fetchAux, catServe]
    have h1 : pageSlice cat 1 = cat.take 100 := by
      unfold pageSlice
      norm_num
    rw [h1]
    cases cat with
    | nil =>
      simp only [List.take_nil]
      rw [List.append_nil]
      congr 1
      simp [numRequests]
    | cons c cs =>
      have htake : (c :: cs).take 100 = c :: cs.take 99 := rfl
      rw [htake]
      show fetchAux org (catServe (c :: cs)) n (1 + 1) (reqs + 1) (acc ++ (c :: cs.take 99))
          = FetchResult.ok (acc ++ (c :: cs)) (reqs + numRequests (c :: cs).length)
      rw [fetchAux_catServe_shift org (c :: cs) n 1 (reqs + 1) _ le_rfl]
      have hfuel2 : numRequests ((c :: cs).drop 100).length ≤ n := by
        rw [numRequests_arith, List.length_drop]
        rw [numRequests_arith] at h
        have hl : (c :: cs).length = cs.length + 1 := rfl
        omega
      rw [ih ((c :: cs).drop 100) (reqs + 1) (acc ++ c :: cs.take 99) hfuel2]
      have hcat : (acc ++ c :: cs.take 99) ++ (c :: cs).drop 100 = acc ++ (c :: cs) := by
        rw [List.append_assoc]
        congr 1
        exact List.take_append_drop 100 (c :: cs)
      rw [hcat]
      congr 1
      rw [numRequests_arith, numRequests_arith, List.length_drop]
      have hl : (c :: cs).length = cs.length + 1 := rfl
      omega

/-- Claim C2 (corrected): for a catalog of k*100 + r descriptors served 100
per page, fetch_repositories returns exactly the catalog in original page
order, issuing k+1 page requests when r = 0 and k+2 when r > 0 (the loop
only stops on the first empty page, so a non-empty partial page costs one
further request). -/
theorem fetch_repositories_catalog_pagination (org : String) (cat : List α) (fuel : Nat)
    (hfuel : numRequests cat.length ≤ fuel) :
    fetch_repositories org (catServe cat) fuel = .ok cat (numRequests cat.length)
    ∧ ∀ k r : Nat, cat.length = k * 100 + r → r < 100 →
        numRequests cat.length = if r = 0 then k + 1 else k + 2 := by
  constructor
  · unfold fetch_repositories
    have h := fetchAux_catServe org fuel cat 0 [] hfuel
    simpa using h
  · intro k r hkr hr
    rw [numRequests_arith, hkr]
    split <;> omega

/-- Claim C2 witness: a 5-descriptor catalog (k = 0, r = 5) is returned in
full with two page requests. -/
theorem fetch_repositories_catalog_pagination_inst :
    fetch_repositories "acme" (catServe [10, 11, 12, 13, 14]) 10
      = .ok [10, 11, 12, 13, 14] (numRequests 5)
    ∧ numRequests 5 = 2 := by
  have h := fetch_repositories_catalog_pagination "acme" [10, 11, 12, 13, 14] 10 (by decide)
  exact ⟨h.1, h.2 0 5 (by decide) (by decide)⟩

/-- Claim C2 counterexample: for the 5-descriptor catalog (k = 0, r = 5) the
claim predicts exactly k+1 = 1 page request, but the loop issues 2: it must
fetch page 2 and see it empty before stopping. -/
theorem fetch_repositories_extra_page_request :
    fetch_repositories "acme" (catServe [0, 1, 2, 3, 4]) 10 = .ok [0, 1, 2, 3, 4] 2
    ∧ fetch_repositories "acme" (catServe [0, 1, 2, 3, 4]) 10 ≠ .ok [0, 1, 2, 3, 4] 1 := by
  decide

/-! ## C3 and C4: failure handling of fetch_repositories -/

/-- Reaching page p after non-empty pages 1..p-1 (seen from any start page q),
a request error at page p is fatal on its first and only attempt: the loop
issues one request per page, so the failing run makes reqs + (p - q) + 1
requests in total and the error is reported as-is with the failing URL. -/
theorem fetchAux_fatal_of_chain (org : String) (http : Nat → Nat → HttpOutcome α) :
    ∀ (fuel p q reqs : Nat) (acc : List α) (e : ReqError),
      1 ≤ q → q ≤ p → p - q < fuel →
      (∀ i, q ≤ i → i < p → ∃ items, http i 0 = .page items ∧ items ≠ []) →
      http p 0 = .err e →
      fetchAux org http fuel q reqs acc
        = .fatal (pageUrl org p) p e (reqs + (p - q) + 1) := by
  intro fuel
  induction fuel with
  | zero => intro p q reqs acc e h1 h2 h3 hchain herr; omega
  | succ n ih =>
    intro p q reqs acc e h1 h2 h3 hchain herr
    by_cases hqp : q = p
    · subst hqp
      simp only [fetchAux, herr]
      congr 1
      omega
    · have hlt : q < p := lt_of_le_of_ne h2 hqp
      obtain ⟨items, hit, hne⟩ := hchain q le_rfl hlt
      cases items with
      | nil => exact absurd rfl hne
      | cons x xs =>
        simp only [fetchAux, hit]
        rw [ih p (q + 1) (reqs + 1) (acc ++ x :: xs) e (by omega) (by omega) (by omega)
          (fun i hi1 hi2 => hchain i (by omega) hi2) herr]
        congr 1
        omega

/-- Claim C3 (corrected): no retry policy exists.  A request failure of any
kind — transient included — on the single attempt made for a page is fatal
immediately: the run ends with the underlying error after exactly one request
for the failing page (p requests in total when pages 1..p-1 were non-empty),
with no backoff and no later attempts consulted. -/
theorem fetch_repositories_no_retry (org : String) (http : Nat → Nat → HttpOutcome α)
    (fuel p : Nat) (e : ReqError)
    (hp : 1 ≤ p) (hfuel : p ≤ fuel)
    (hchain : ∀ i, 1 ≤ i → i < p → ∃ items, http i 0 = .page items ∧ items ≠ [])
    (herr : http p 0 = .err e) :
    fetch_repositories org http fuel = .fatal (pageUrl org p) p e p := by
  unfold fetch_repositories
  rw [fetchAux_fatal_of_chain org http fuel p 1 0 [] e le_rfl hp (by omega) hchain herr]
  congr 1
  omega

/-- Claim C3 witness: page 1 fails transiently on its first attempt; the run
is fatal after that single request even though a second attempt would also
have failed and a third would have succeeded. -/
theorem fetch_repositories_no_retry_inst :
    fetch_repositories "acme" serveTransientThenOk 5
      = .fatal (pageUrl "acme" 1) 1 (.netError "timeout") 1 :=
  fetch_repositories_no_retry "acme" serveTransientThenOk 5 1 (.netError "timeout")
    le_rfl (by omega) (fun i hi1 hi2 => absurd (lt_of_le_of_lt hi1 hi2) (lt_irrefl 1)) rfl

/-- Claim C3 counterexample: under the specification's scenario — transient
failures on the first two attempts for page 1, success on the third — the
code does not produce the successful page result: it exits fatally after the
first attempt, with one request and no backoff. -/
theorem fetch_repositories_transient_not_retried :
    fetch_repositories "acme" serveTransientThenOk 10
      = .fatal (pageUrl "acme" 1) 1 (.netError "timeout") 1
    ∧ serveTransientThenOk 1 2 = .page [42]
    ∧ (.fatal (pageUrl "acme" 1) 1 (.netError "timeout") 1 : FetchResult Nat)
        ≠ .ok [42] 2 := by
  refine ⟨rfl, rfl, by simp⟩

/-- Claim C4 (confirmed): an HTTP 404 on a page request is fatal immediately
— the run ends with the 404 as its error after exactly one request for that
page and zero retries — and the failure echoes the requested URL, which
carries the requested organization name. -/
theorem fetch_repositories_404_immediate (org : String) (http : Nat → Nat → HttpOutcome α)
    (fuel p : Nat)
    (hp : 1 ≤ p) (hfuel : p ≤ fuel)
    (hchain : ∀ i, 1 ≤ i → i < p → ∃ items, http i 0 = .page items ∧ items ≠ [])
    (h404 : http p 0 = .err (.httpStatus 404)) :
    fetch_repositories org http fuel = .fatal (pageUrl org p) p (.httpStatus 404) p
    ∧ ∃ pre post, pageUrl org p = pre ++ org ++ post := by
  constructor
  · unfold fetch_repositories
    rw [fetchAux_fatal_of_chain org http fuel p 1 0 [] (.httpStatus 404)
      le_rfl hp (by omega) hchain h404]
    congr 1
    omega
  · exact ⟨"https://api.github.com/orgs/",
      "/repos" ++ "?page=" ++ toString p ++ "&per_page=100",
      by simp [pageUrl, String.append_assoc]⟩

/-- Claim C4 witness: a 404 on the first page is fatal with one request and
zero retries, and the failing URL carries the organization name. -/
theorem fetch_repositories_404_immediate_inst :
    fetch_repositories "thorlabsDev" serve404 5
      = .fatal (pageUrl "thorlabsDev" 1) 1 (.httpStatus 404) 1
    ∧ ∃ pre post, pageUrl "thorlabsDev" 1 = pre ++ "thorlabsDev" ++ post := by
  have h := fetch_repositories_404_immediate "thorlabsDev" serve404 5 1
    le_rfl (by omega) (fun i hi1 hi2 => absurd (lt_of_le_of_lt hi1 hi2) (lt_irrefl 1)) rfl
  exact h

/-! ## C5 and C6: index selection -/

/-- Claim C5 (corrected): an INDEX_SUBSET input that parses but contains any
out-of-range index is rejected as a whole — the attempt reports out of range
and the operator is re-prompted; no partial plan with the in-range subset is
produced from that input. -/
theorem selection_out_of_range_reprompts (n : Nat) (s : String) (idxs : List Int)
    (tl : List String)
    (hp : parseIndices s = some idxs)
    (hout : idxs.all (fun i => decide (0 ≤ i) && decide (i < (n : Int))) = false) :
    selAttempt s n = .outOfRange
    ∧ get_selected_repos true (s :: tl) n = get_selected_repos true tl n := by
  have h1 : selAttempt s n = .outOfRange := by
    unfold selAttempt
    rw [hp]
    simp [hout]
  refine ⟨h1, ?_⟩
  show selLoop n (s :: tl) = selLoop n tl
  conv_lhs => rw [selLoop]
  rw [h1]

/-- Claim C5 witness: the specification's own instance — "1,3,99" against a
5-element catalog — is reported out of range and re-prompted, consuming the
next operator line instead of returning positions 0 and 2. -/
theorem selection_out_of_range_reprompts_inst :
    selAttempt "1,3,99" 5 = .outOfRange
    ∧ get_selected_repos true ["1,3,99", "1,3"] 5 = get_selected_repos true ["1,3"] 5 :=
  selection_out_of_range_reprompts 5 "1,3,99" [0, 2, 98] ["1,3"] (by decide) (by decide)

/-- Claim C5 counterexample: "1,3,99" against a 5-element catalog does not
yield the partial plan [0, 2]; the attempt is rejected out of range and, with
no further operator input, no plan at all is produced. -/
theorem selection_1_3_99_no_partial_plan :
    selAttempt "1,3,99" 5 = .outOfRange
    ∧ get_selected_repos true ["1,3,99"] 5 = none
    ∧ get_selected_repos true ["1,3,99"] 5 ≠ some [0, 2] := by decide

/-- Claim C6 (corrected): a non-integer token makes the attempt a ValueError:
the source reports invalid input and re-prompts.  The planning step does not
fail as a whole and raises no error — it retries with the next operator
line. -/
theorem selection_invalid_token_reprompts (n : Nat) (s : String) (tl : List String)
    (hp : parseIndices s = none) :
    selAttempt s n = .invalid
    ∧ get_selected_repos true (s :: tl) n = get_selected_repos true tl n := by
  have h1 : selAttempt s n = .invalid := by
    unfold selAttempt
    rw [hp]
  refine ⟨h1, ?_⟩
  show selLoop n (s :: tl) = selLoop n tl
  conv_lhs => rw [selLoop]
  rw [h1]

/-- Claim C6 witness: "a,b" is reported invalid and the loop consumes the
next operator line. -/
theorem selection_invalid_token_reprompts_inst :
    selAttempt "a,b" 5 = .invalid
    ∧ get_selected_repos true ["a,b", "2"] 5 = get_selected_repos true ["2"] 5 :=
  selection_invalid_token_reprompts 5 "a,b" ["2"] (by decide)

/-- Claim C6 counterexample: after the unparsable input "a,b" the planning
step has not failed — a subsequent valid line still produces a plan, so no
SelectionParseError terminates planning. -/
theorem selection_invalid_then_retry_plan :
    selAttempt "a,b" 5 = .invalid
    ∧ get_selected_repos true ["a,b", "1"] 5 = some [0] := by decide

/-! ## C7 and C10: harvest bookkeeping -/

/-- countP of a predicate and its negation partition the length. -/
theorem countP_total (p : α → Bool) (l : List α) :
    l.countP p + l.countP (fun a => !(p a)) = l.length := by
  induction l with
  | nil => rfl
  | cons x xs ih =>
    cases hx : p x <;>
      simp [List.countP_cons, hx, ← ih] <;> omega

/-- The catalog-driven loop, from any starting counters, adds the number of
processed entries for which clone-and-process returned True to both
successful_clones and processed_readmes, and the number returning False to
failed_clones. -/
theorem cloneLoop_counts (catalog : List RepoSpec) (org_path docs_dir : String) :
    ∀ (idxs : List Int) (s : Summary),
      cloneLoop catalog org_path docs_dir idxs s =
        ⟨s.successful_clones
            + (pickedRepos catalog idxs).countP (fun r => harvestOk r org_path docs_dir),
          s.failed_clones
            + (pickedRepos catalog idxs).countP (fun r => !(harvestOk r org_path docs_dir)),
          s.processed_readmes
            + (pickedRepos catalog idxs).countP (fun r => harvestOk r org_path docs_dir)⟩ := by
  intro idxs
  induction idxs with
  | nil => intro s; simp [cloneLoop, pickedRepos]
  | cons i rest ih =>
    intro s
    by_cases hg : i < 0 ∨ (catalog.length : Int) ≤ i
    · have hpick : pickedRepos catalog (i :: rest) = pickedRepos catalog rest := by
        unfold pickedRepos
        rw [List.filterMap_cons]
        rw [if_pos hg]
      have hloop : cloneLoop catalog org_path docs_dir (i :: rest) s
          = cloneLoop catalog org_path docs_dir rest s := by
        conv_lhs => rw [cloneLoop]
        rw [if_pos hg]
      rw [hloop, hpick, ih s]
    · have hlt : i.toNat < catalog.length := by omega
      have hget : catalog[i.toNat]? = some catalog[i.toNat] := by
        exact List.getElem?_eq_getElem hlt
      have hpick : pickedRepos catalog (i :: rest)
          = catalog[i.toNat] :: pickedRepos catalog rest := by
        unfold pickedRepos
        rw [List.filterMap_cons]
        rw [if_neg hg, hget]
      have hloop : cloneLoop catalog org_path docs_dir (i :: rest) s
          = cloneLoop catalog org_path docs_dir rest
              (cloneStep s (harvestOk catalog[i.toNat] org_path docs_dir)) := by
        conv_lhs => rw [cloneLoop]
        rw [if_neg hg, hget]
      rw [hloop, hpick, ih]
      cases hok : harvestOk catalog[i.toNat] org_path docs_dir <;>
        simp [cloneStep, hok, List.countP_cons] <;> omega

/-- Claim C7 (corrected): the loop processes every in-range plan entry and a
failing entry never stops it, but the final tallies are not independent:
successful_clones counts the entries for which clone-and-process returned
True — clone succeeded AND a README was found — failed_clones counts all the
others (clone failures and clone successes without a README alike), and
processed_readmes equals successful_clones.  Together they account for every
processed entry. -/
theorem clone_summary_tallies (catalog : List RepoSpec) (idxs : List Int)
    (org_path docs_dir : String) :
    clone_organization_repos_summary catalog idxs org_path docs_dir =
      ⟨(pickedRepos catalog idxs).countP (fun r => harvestOk r org_path docs_dir),
        (pickedRepos catalog idxs).countP (fun r => !(harvestOk r org_path docs_dir)),
        (pickedRepos catalog idxs).countP (fun r => harvestOk r org_path docs_dir)⟩
    ∧ (pickedRepos catalog idxs).countP (fun r => harvestOk r org_path docs_dir)
        + (pickedRepos catalog idxs).countP (fun r => !(harvestOk r org_path docs_dir))
        = (pickedRepos catalog idxs).length := by
  constructor
  · have h := cloneLoop_counts catalog org_path docs_dir idxs ⟨0, 0, 0⟩
    simpa [clone_organization_repos_summary] using h
  · exact countP_total _ _

/-- Claim C7 counterexample: a one-entry plan whose clone succeeds but whose
tree has no README is tallied as a failed clone: the summary reports 0
successful and 1 failed although 1 clone succeeded and 0 clones failed. -/
theorem clone_summary_counts_conflated :
    clone_organization_repos_summary exCatalogCloneOkNoReadme [0] "/w/b/o" "/w/docs"
      = ⟨0, 1, 0⟩
    ∧ exCatalogCloneOkNoReadme.countP (fun r => r.cloneOk) = 1
    ∧ exCatalogCloneOkNoReadme.countP (fun r => !(r.cloneOk)) = 0 := by decide

/-- Claim C10 (confirmed): in the catalog-driven path the reported
successful-clone count always equals the README-processed count; the
per-repository step returns True exactly when the clone succeeded and a
README was found; and an entry whose clone succeeds without a README is
tallied as a failed clone. -/
theorem clone_success_iff_readme (catalog : List RepoSpec) (idxs : List Int)
    (org_path docs_dir : String) (r : RepoSpec) :
    (clone_organization_repos_summary catalog idxs org_path docs_dir).successful_clones
      = (clone_organization_repos_summary catalog idxs org_path docs_dir).processed_readmes
    ∧ (clone_and_process_repo r org_path docs_dir).1
        = (r.cloneOk && (find_readme (pjoin org_path r.name) r.tree).isSome)
    ∧ (r.cloneOk = true → find_readme (pjoin org_path r.name) r.tree = none →
        ∀ s : Summary, cloneStep s (harvestOk r org_path docs_dir)
          = ⟨s.successful_clones, s.failed_clones + 1, s.processed_readmes⟩) := by
  refine ⟨?_, ?_, ?_⟩
  · unfold clone_organization_repos_summary
    rw [cloneLoop_counts catalog org_path docs_dir idxs ⟨0, 0, 0⟩]
  · unfold clone_and_process_repo
    cases hc : r.cloneOk
    · simp [hc]
    · cases hf : find_readme (pjoin org_path r.name) r.tree <;> simp [hc, hf]
  · intro hc hf s
    have hok : harvestOk r org_path docs_dir = false := by
      unfold harvestOk clone_and_process_repo
      simp [hc, hf]
    rw [hok]
    simp [cloneStep]

/-- Claim C10 witness: the one-entry catalog whose clone succeeds without a
README keeps successful equal to readmes and its entry is tallied as a
failed clone. -/
theorem clone_success_iff_readme_inst :
    (clone_organization_repos_summary exCatalogCloneOkNoReadme [0] "/a/b" "/a/docs").successful_clones
      = (clone_organization_repos_summary exCatalogCloneOkNoReadme [0] "/a/b" "/a/docs").processed_readmes
    ∧ (clone_and_process_repo ⟨"beta", true, exTreeNoReadme⟩ "/a/b" "/a/docs").1
        = (true && (find_readme (pjoin "/a/b" "beta") exTreeNoReadme).isSome)
    ∧ cloneStep ⟨3, 4, 5⟩ (harvestOk ⟨"beta", true, exTreeNoReadme⟩ "/a/b" "/a/docs")
        = ⟨3, 5, 5⟩ := by
  have h := clone_success_iff_readme exCatalogCloneOkNoReadme [0] "/a/b" "/a/docs"
    ⟨"beta", true, exTreeNoReadme⟩
  exact ⟨h.1, h.2.1, h.2.2 rfl (by decide) ⟨3, 4, 5⟩⟩

/-! ## C8: README search -/

/-- find? succeeds exactly on lists where some element satisfies the
predicate. -/
theorem find?_isSome_any (p : α → Bool) (l : List α) :
    (l.find? p).isSome = l.any p := by
  induction l with
  | nil => rfl
  | cons x xs ih =>
    cases hx : p x <;> simp [List.find?, hx, ih]

mutual

/-- find_readme returns exactly the first os.walk entry, in traversal order,
whose file name lowercases to readme.md, joined to its directory path. -/
theorem find_readme_eq_walk (root : String) (t : DirTree) :
    find_readme root t
      = ((walkTree root t).find? isReadmeEntry).map (fun pr => pjoin pr.1 pr.2) := by
  cases t with
  | node n files subdirs =>
    simp only [find_readme, walkTree, List.find?_append]
    have hm : (files.map (fun f => (root, f))).find? isReadmeEntry
        = (files.find? isReadmeName).map (fun f => (root, f)) := by
      rw [List.find?_map]
      rfl
    rw [hm]
    cases hf : files.find? isReadmeName with
    | some f => simp
    | none => simp [find_readme_list_eq_walk root subdirs]

/-- find_readme_list returns exactly the first matching walk entry of the
concatenated subdirectory walks. -/
theorem find_readme_list_eq_walk (root : String) (ts : List DirTree) :
    find_readme_list root ts
      = ((walkTreeList root ts).find? isReadmeEntry).map (fun pr => pjoin pr.1 pr.2) := by
  cases ts with
  | nil => rfl
  | cons t ts2 =>
    simp only [find_readme_list, walkTreeList, List.find?_append]
    rw [find_readme_eq_walk (pjoin root t.name) t]
    cases hw : (walkTree (pjoin root t.name) t).find? isReadmeEntry with
    | some pr => simp
    | none => simp [find_readme_list_eq_walk root ts2]

end

/-- Claim C8 (confirmed): the README search is a case-insensitive recursive
walk with no depth limit — it returns the first walk-order entry whose name
case-insensitively equals readme.md.  When such a file exists anywhere in the
cloned tree, clone-and-process copies it to docs_dir under
{repoName}_README.md and reports success; when none exists, it reports False
with no copy and no error. -/
theorem find_readme_walk_spec (t : DirTree) (root org_path docs_dir repo_name : String) :
    (find_readme root t
      = ((walkTree root t).find? isReadmeEntry).map (fun pr => pjoin pr.1 pr.2))
    ∧ ((walkTree (pjoin org_path repo_name) t).any isReadmeEntry = true →
        ∃ readme_src, find_readme (pjoin org_path repo_name) t = some readme_src
          ∧ clone_and_process_repo ⟨repo_name, true, t⟩ org_path docs_dir
              = (true, some (readme_src, pjoin docs_dir (repo_name ++ "_README.md"))))
    ∧ ((walkTree (pjoin org_path repo_name) t).any isReadmeEntry = false →
        clone_and_process_repo ⟨repo_name, true, t⟩ org_path docs_dir = (false, none)) := by
  refine ⟨find_readme_eq_walk root t, ?_, ?_⟩
  · intro hany
    have hsome : ((walkTree (pjoin org_path repo_name) t).find? isReadmeEntry).isSome = true := by
      rw [find?_isSome_any]
      exact hany
    obtain ⟨pr, hpr⟩ := Option.isSome_iff_exists.mp hsome
    refine ⟨pjoin pr.1 pr.2, ?_, ?_⟩
    · rw [find_readme_eq_walk, hpr]
      rfl
    · unfold clone_and_process_repo
      have hfr : find_readme (pjoin org_path repo_name) t = some (pjoin pr.1 pr.2) := by
        rw [find_readme_eq_walk, hpr]
        rfl
      simp [hfr]
  · intro hany
    have hnone : (walkTree (pjoin org_path repo_name) t).find? isReadmeEntry = none := by
      have h := find?_isSome_any isReadmeEntry (walkTree (pjoin org_path repo_name) t)
      rw [hany] at h
      exact Option.not_isSome_iff_eq_none.mp (by rw [h]; simp)
    have hfr : find_readme (pjoin org_path repo_name) t = none := by
      rw [find_readme_eq_walk, hnone]
      rfl
    unfold clone_and_process_repo
    simp [hfr]

/-- Claim C8 witness: a tree holding sub/ReadMe.MD two levels down is found
(case-insensitively, below the root) and copied as alpha_README.md, and a
tree with no README reports False without error. -/
theorem find_readme_walk_spec_inst :
    (walkTree (pjoin "/w/b/o" "alpha") exTreeDeepReadme).any isReadmeEntry = true
    ∧ (∃ readme_src,
        find_readme (pjoin "/w/b/o" "alpha") exTreeDeepReadme = some readme_src
        ∧ clone_and_process_repo ⟨"alpha", true, exTreeDeepReadme⟩ "/w/b/o" "/w/docs"
            = (true, some (readme_src, pjoin "/w/docs" ("alpha" ++ "_README.md"))))
    ∧ clone_and_process_repo ⟨"beta", true, exTreeNoReadme⟩ "/w/b/o" "/w/docs" = (false, none)
    ∧ find_readme (pjoin "/w/b/o" "alpha") exTreeDeepReadme
        = some "/w/b/o/alpha/sub/ReadMe.MD" := by
  refine ⟨by decide,
    (find_readme_walk_spec exTreeDeepReadme "/x" "/w/b/o" "/w/docs" "alpha").2.1 (by decide),
    (find_readme_walk_spec exTreeNoReadme "/x" "/w/b/o" "/w/docs" "beta").2.2 (by decide),
    by decide⟩

/-! ## C9: filesystem layout -/

/-- A nonempty string has a nonempty character list. -/
theorem data_ne_nil (s : String) (h : s ≠ "") : s.data ≠ [] := by
  intro hd
  exact h (String.ext (hd.trans rfl))

/-- The last character of an append with a nonempty right part is the right
part's last character. -/
theorem lastChar?_append (a b : String) (hb : b ≠ "") :
    lastChar? (a ++ b) = lastChar? b := by
  unfold lastChar?
  rw [String.data_append, List.getLast?_append]
  cases hlast : b.data.getLast? with
  | none =>
    exact absurd (List.getLast?_eq_none_iff.mp hlast) (data_ne_nil b hb)
  | some c => rfl

/-- Appending to a nonempty string keeps its first character, hence its
leading-slash status. -/
theorem startsWithS_slash_append (x y : String) (hx : x ≠ "") :
    startsWithS (x ++ y) "/" = startsWithS x "/" := by
  unfold startsWithS
  rw [String.data_append]
  cases hxd : x.data with
  | nil => exact absurd hxd (data_ne_nil x hx)
  | cons c cs => simp [List.isPrefixOf]

/-- A separated join is never the empty string. -/
theorem sep_join_ne_empty (a b : String) : a ++ "/" ++ b ≠ "" := by
  intro h
  have hl := congrArg String.length h
  rw [String.length_append, String.length_append] at hl
  have h1 : ("/" : String).length = 1 := rfl
  have h0 : ("" : String).length = 0 := rfl
  omega

/-- posixpath.join inserts exactly one separator when the left part is
nonempty with no trailing separator and the right part is relative. -/
theorem pjoin_sep (a b : String) (ha : a ≠ "") (ha2 : lastChar? a ≠ some '/')
    (hb : startsWithS b "/" = false) :
    pjoin a b = a ++ "/" ++ b := by
  unfold pjoin
  rw [if_neg (by simp [hb])]
  rw [if_neg (by
    intro hc
    rcases hc with hc | hc
    · exact ha hc
    · exact ha2 hc)]

/-- Claim C9 (corrected): in both modes every clone lands at
{workingDir}/{baseDir}/{orgDir}/{repoName}; the harvested documentation file
goes to {workingDir}/docs/{repoName}_README.md in the catalog-driven mode,
but in the file-driven mode it goes to
{workingDir}/{baseDir}/{orgDir}/docs/{repoName}_README.md, because that mode
joins its docs directory onto os.getcwd() evaluated after the chdir into the
organization directory. -/
theorem layout_paths (org_name base_dir : String) (org_dir? : Option String)
    (repo_name cwd0 : String)
    (hc1 : cwd0 ≠ "") (hc2 : lastChar? cwd0 ≠ some '/')
    (hb1 : base_dir ≠ "") (hb2 : lastChar? base_dir ≠ some '/')
    (hb3 : startsWithS base_dir "/" = false)
    (ho1 : org_dir?.getD org_name ≠ "")
    (ho2 : lastChar? (org_dir?.getD org_name) ≠ some '/')
    (ho3 : startsWithS (org_dir?.getD org_name) "/" = false)
    (hr1 : repo_name ≠ "") (hr3 : startsWithS repo_name "/" = false) :
    (catalog_mode_layout org_name base_dir org_dir? repo_name cwd0).cloneDest
        = cwd0 ++ "/" ++ base_dir ++ "/" ++ org_dir?.getD org_name ++ "/" ++ repo_name
    ∧ (file_mode_layout org_name base_dir org_dir? repo_name cwd0).cloneDest
        = cwd0 ++ "/" ++ base_dir ++ "/" ++ org_dir?.getD org_name ++ "/" ++ repo_name
    ∧ (catalog_mode_layout org_name base_dir org_dir? repo_name cwd0).readmeDest
        = cwd0 ++ "/" ++ "docs" ++ "/" ++ (repo_name ++ "_README.md")
    ∧ (file_mode_layout org_name base_dir org_dir? repo_name cwd0).readmeDest
        = cwd0 ++ "/" ++ base_dir ++ "/" ++ org_dir?.getD org_name ++ "/" ++ "docs" ++ "/"
            ++ (repo_name ++ "_README.md") := by
  have hjb : pjoin cwd0 base_dir = cwd0 ++ "/" ++ base_dir := pjoin_sep cwd0 base_dir hc1 hc2 hb3
  have hjb1 : cwd0 ++ "/" ++ base_dir ≠ "" := sep_join_ne_empty cwd0 base_dir
  have hjb2 : lastChar? (cwd0 ++ "/" ++ base_dir) ≠ some '/' := by
    rw [lastChar?_append _ base_dir hb1]
    exact hb2
  have hjo : pjoin (cwd0 ++ "/" ++ base_dir) (org_dir?.getD org_name)
      = cwd0 ++ "/" ++ base_dir ++ "/" ++ org_dir?.getD org_name :=
    pjoin_sep _ _ hjb1 hjb2 ho3
  have hjo1 : cwd0 ++ "/" ++ base_dir ++ "/" ++ org_dir?.getD org_name ≠ "" :=
    sep_join_ne_empty _ _
  have hjo2 : lastChar? (cwd0 ++ "/" ++ base_dir ++ "/" ++ org_dir?.getD org_name)
      ≠ some '/' := by
    rw [lastChar?_append _ _ ho1]
    exact ho2
  have hjr : pjoin (cwd0 ++ "/" ++ base_dir ++ "/" ++ org_dir?.getD org_name) repo_name
      = cwd0 ++ "/" ++ base_dir ++ "/" ++ org_dir?.getD org_name ++ "/" ++ repo_name :=
    pjoin_sep _ _ hjo1 hjo2 hr3
  have hdocs0 : pjoin cwd0 "docs" = cwd0 ++ "/" ++ "docs" :=
    pjoin_sep cwd0 "docs" hc1 hc2 (by decide)
  have hdocs1 : pjoin (cwd0 ++ "/" ++ base_dir ++ "/" ++ org_dir?.getD org_name) "docs"
      = cwd0 ++ "/" ++ base_dir ++ "/" ++ org_dir?.getD org_name ++ "/" ++ "docs" :=
    pjoin_sep _ "docs" hjo1 hjo2 (by decide)
  have hrm : startsWithS (repo_name ++ "_README.md") "/" = false := by
    rw [startsWithS_slash_append repo_name _ hr1]
    exact hr3
  have hcd0 : cwd0 ++ "/" ++ "docs" ≠ "" := sep_join_ne_empty _ _
  have hcd2 : lastChar? (cwd0 ++ "/" ++ "docs") ≠ some '/' := by
    rw [lastChar?_append _ "docs" (by decide)]
    decide
  have hod0 : cwd0 ++ "/" ++ base_dir ++ "/" ++ org_dir?.getD org_name ++ "/" ++ "docs" ≠ "" :=
    sep_join_ne_empty _ _
  have hod2 : lastChar? (cwd0 ++ "/" ++ base_dir ++ "/" ++ org_dir?.getD org_name
      ++ "/" ++ "docs") ≠ some '/' := by
    rw [lastChar?_append _ "docs" (by decide)]
    decide
  refine ⟨?_, ?_, ?_, ?_⟩
  · show pjoin (pjoin (pjoin cwd0 base_dir) (org_dir?.getD org_name)) repo_name = _
    rw [hjb, hjo, hjr]
  · show pjoin (pjoin (pjoin cwd0 base_dir) (org_dir?.getD org_name)) repo_name = _
    rw [hjb, hjo, hjr]
  · show pjoin (pjoin cwd0 "docs") (repo_name ++ "_README.md") = _
    rw [hdocs0, pjoin_sep _ _ hcd0 hcd2 hrm]
  · show pjoin (pjoin (pjoin (pjoin cwd0 base_dir) (org_dir?.getD org_name)) "docs")
        (repo_name ++ "_README.md") = _
    rw [hjb, hjo, hdocs1, pjoin_sep _ _ hod0 hod2 hrm]

/-- Claim C9 witness: with working directory /w, base dir b, default org dir
o and repository r, both modes clone to /w/b/o/r; the catalog mode writes
docs to /w/docs/r_README.md and the file mode to /w/b/o/docs/r_README.md. -/
theorem layout_paths_inst :
    (catalog_mode_layout "o" "b" none "r" "/w").cloneDest = "/w" ++ "/" ++ "b" ++ "/" ++ "o" ++ "/" ++ "r"
    ∧ (file_mode_layout "o" "b" none "r" "/w").cloneDest = "/w" ++ "/" ++ "b" ++ "/" ++ "o" ++ "/" ++ "r"
    ∧ (catalog_mode_layout "o" "b" none "r" "/w").readmeDest = "/w" ++ "/" ++ "docs" ++ "/" ++ ("r" ++ "_README.md")
    ∧ (file_mode_layout "o" "b" none "r" "/w").readmeDest
        = "/w" ++ "/" ++ "b" ++ "/" ++ "o" ++ "/" ++ "docs" ++ "/" ++ ("r" ++ "_README.md") :=
  layout_paths "o" "b" none "r" "/w" (by decide) (by decide) (by decide) (by decide)
    (by decide) (by decide) (by decide) (by decide) (by decide) (by decide)

/-- Claim C9 counterexample: in the file-driven mode the harvested file for
repository r lands under {workingDir}/{baseDir}/{orgDir}/docs, not under
{workingDir}/docs as claimed; the catalog mode does use {workingDir}/docs. -/
theorem file_mode_docs_dir_misplaced :
    (file_mode_layout "o" "b" none "r" "/w").readmeDest = "/w/b/o/docs/r_README.md"
    ∧ (file_mode_layout "o" "b" none "r" "/w").readmeDest ≠ "/w/docs/r_README.md"
    ∧ (catalog_mode_layout "o" "b" none "r" "/w").readmeDest = "/w/docs/r_README.md" := by
  decide

end RepoRipper
